import Mathlib

/-!
Verification of the distributed mutual-exclusion protocol (Lamport logical
clocks) against its specification.  The repository contains two variants of
the process state machine:

* package `mutualexclusion` (the variant with a blocking `Request()` guarded
  by a `sync.WaitGroup` and a per-process mutex) — embedded below at top
  level;
* package `mutual` (the self-driving variant with `occupyTimes` and
  `needResource`) — embedded in namespace `Mutual`.

The leaf data types (`Clock`, `Timestamp`, `RequestQueue`, `ReceivedTime`,
`message`) are used by both variants; their implementation files are not part
of the sources at hand, so they are modelled from the specification, as
marked in their doc comments.  The process state machines themselves are
translated directly from the two Go source files.  Effects on the outside
world (messages published to the transport, calls into the external
`Resource`) are modelled as event traces carried in the process state.
-/

/-- Modelled from the spec: the logical (Lamport) clock is a single integer;
`tick` increments it by one and returns the new value.  (The clock source
file is not under the sources at hand.) -/
def clockTick (c : Nat) : Nat := c + 1

/-- Modelled from the spec: `update(t)` sets the clock to `max(current, t)`. -/
def clockUpdate (c t : Nat) : Nat := max c t

/-- Modelled from the spec: a `Timestamp` is the pair (logical time, owning
process id), immutable, totally ordered by time with owner id as tie-break.
(The timestamp source file is not under the sources at hand.) -/
structure Timestamp where
  time : Nat
  process : Int
deriving DecidableEq

/-- Modelled from the spec: the strict total order on timestamps — compare by
`time` ascending, ties broken by owner `process` ascending. -/
def Timestamp.isLess (a b : Timestamp) : Bool :=
  decide (a.time < b.time) || (decide (a.time = b.time) && decide (a.process < b.process))

/-- Modelled from the spec: structural equality of a timestamp with a
possibly-nil timestamp (the nil timestamp equals nothing). -/
def Timestamp.isEqual (a : Timestamp) : Option Timestamp → Bool
  | some b => decide (a = b)
  | none => false

/-- Modelled from the spec: `IsBefore` compares the timestamp's logical time
strictly against a plain clock value (used against `receivedTime.Min()`). -/
def Timestamp.isBefore (a : Timestamp) (t : Nat) : Bool :=
  decide (a.time < t)

/-- Modelled from the spec: structural equality on possibly-nil timestamps;
nil equals nothing (nil-receiver-safe, as required for `requestTimestamp`
before any request is made). -/
def tsOptEqual : Option Timestamp → Option Timestamp → Bool
  | some a, some b => decide (a = b)
  | _, _ => false

/-- Modelled from the spec: the logical time of a possibly-nil timestamp.
The protocol only reads it after a successful equality test, so the value
chosen for `none` is never semantically relevant. -/
def tsOptTime : Option Timestamp → Nat
  | some a => a.time
  | none => 0

/-- Modelled from the spec: `RequestQueue.push` inserts a timestamp into the
multiset of pending requests (a nil payload, which the protocol never
produces for REQUEST messages, inserts nothing). -/
def queuePush (q : List Timestamp) : Option Timestamp → List Timestamp
  | some ts => q ++ [ts]
  | none => q

/-- Modelled from the spec: `RequestQueue.remove` deletes one entry that is
structurally equal to the given timestamp; removing a non-existent entry is a
no-op, not an error (a nil token matches no entry). -/
def queueRemove (q : List Timestamp) : Option Timestamp → List Timestamp
  | some ts => q.erase ts
  | none => q

/-- Modelled from the spec: `RequestQueue.min` returns the smallest timestamp
under the total order, or the empty sentinel (`none`) if there are no
entries. -/
def queueMin : List Timestamp → Option Timestamp
  | [] => none
  | t :: rest =>
    match queueMin rest with
    | none => some t
    | some m => if t.isLess m then some t else some m

/-- Modelled from the spec: `ReceivedTime` maps each other process id to the
last logical time received from it; `update` takes the max (inserting when
the peer is not yet present). -/
def rtUpdate : List (Int × Nat) → Int → Nat → List (Int × Nat)
  | [], id, t => [(id, t)]
  | (i, v) :: rest, id, t =>
    if i = id then (i, max v t) :: rest else (i, v) :: rtUpdate rest id t

/-- Modelled from the spec: `ReceivedTime.min` returns the smallest recorded
time across all peers (the slowest-informed-peer bound). -/
def rtMin : List (Int × Nat) → Nat
  | [] => 0
  | (_, v) :: rest => rest.foldl (fun a p => min a p.2) v

/-- OTHERS is the broadcast sentinel: the message is addressed to all other
processes. -/
def OTHERS : Int := -1

/-- The three message types of the protocol. -/
inductive MsgType where
  | requestResource
  | acknowledgment
  | releaseResource
deriving DecidableEq

/-- Modelled from the spec: the wire message — type, sender clock at send
time, sender, recipient (a process id or the `OTHERS` sentinel) and the
payload timestamp (may be empty for ACK messages). -/
structure Message where
  msgType : MsgType
  msgTime : Nat
  from_ : Int
  to_ : Int
  timestamp : Option Timestamp
deriving DecidableEq

/-- Constructor mirroring the Go `newMessage`. -/
def newMessage (t : MsgType) (time : Nat) (from_ to_ : Int) (ts : Option Timestamp) : Message :=
  ⟨t, time, from_, to_, ts⟩

/-- A call into the external `Resource` collaborator, recorded as an event. -/
inductive ResourceEvent where
  | occupy (ts : Option Timestamp)
  | release (ts : Option Timestamp)
deriving DecidableEq

/-- The state of one process of the `mutualexclusion` variant.  `wg` models
the `sync.WaitGroup` counter that blocks `Request`; `sent` is the trace of
messages published to the transport; `events` is the trace of calls into the
external resource. -/
structure Process where
  me : Int
  wg : Nat
  clock : Nat
  receivedTime : List (Int × Nat)
  requestQueue : List Timestamp
  isOccupying : Bool
  requestTimestamp : Option Timestamp
  sent : List Message
  events : List ResourceEvent
deriving DecidableEq

/-- `updateTime` from the `mutualexclusion` variant: on any received message,
first update the local clock, then record the sender's send time for
Rule 5(ii). -/
def updateTime (p : Process) (from_ : Int) (time : Nat) : Process :=
  { p with
    clock := clockUpdate p.clock time
    receivedTime := rtUpdate p.receivedTime from_ time }

/-- `isSatisfiedRule5` from the `mutualexclusion` variant: not occupying, a
request is outstanding, it is the minimum of the request queue, and it is
before the minimum received time. -/
def isSatisfiedRule5 (p : Process) : Bool :=
  !p.isOccupying &&
    (match p.requestTimestamp with
     | none => false
     | some ts =>
       ts.isEqual (queueMin p.requestQueue) && ts.isBefore (rtMin p.receivedTime))

/-- `occupyResource` from the `mutualexclusion` variant: mark occupying and
call the external resource's `Occupy` with the active request timestamp. -/
def occupyResource (p : Process) : Process :=
  { p with
    isOccupying := true
    events := p.events ++ [ResourceEvent.occupy p.requestTimestamp] }

/-- `checkRule5` from the `mutualexclusion` variant: if rule 5 is satisfied,
occupy the resource (the subsequent release is scheduled separately). -/
def checkRule5 (p : Process) : Process :=
  if isSatisfiedRule5 p then occupyResource p else p

/-- `releaseResource` from the `mutualexclusion` variant: release the
resource with the active request timestamp, remove it from the request queue,
tick the clock and broadcast a RELEASE message carrying it, reset the
occupying flag and the active request timestamp, and signal the wait group
(unblocking a waiting `Request`). -/
def releaseResource (p : Process) : Process :=
  { p with
    events := p.events ++ [ResourceEvent.release p.requestTimestamp]
    requestQueue := queueRemove p.requestQueue p.requestTimestamp
    clock := clockTick p.clock
    sent := p.sent ++
      [newMessage MsgType.releaseResource (clockTick p.clock) p.me OTHERS p.requestTimestamp]
    isOccupying := false
    requestTimestamp := none
    wg := p.wg - 1 }

/-- `Request` from the `mutualexclusion` variant: after waiting on the wait
group (modelled as the precondition `wg = 0` where needed) and incrementing
it, tick the clock once, build the timestamp from the new clock value,
broadcast a REQUEST message carrying that same clock value and the timestamp,
push the timestamp into the local request queue and record it as the active
request timestamp. -/
def Request (p : Process) : Process :=
  { p with
    wg := p.wg + 1
    clock := clockTick p.clock
    sent := p.sent ++
      [newMessage MsgType.requestResource (clockTick p.clock) p.me OTHERS
        (some ⟨clockTick p.clock, p.me⟩)]
    requestQueue := queuePush p.requestQueue (some ⟨clockTick p.clock, p.me⟩)
    requestTimestamp := some ⟨clockTick p.clock, p.me⟩ }

/-- `handleRequestMessage` from the `mutualexclusion` variant: push the
incoming request's timestamp, then tick the clock and answer the sender with
an acknowledge message carrying the new clock value. -/
def handleRequestMessage (p : Process) (msg : Message) : Process :=
  { p with
    requestQueue := queuePush p.requestQueue msg.timestamp
    clock := clockTick p.clock
    sent := p.sent ++
      [newMessage MsgType.acknowledgment (clockTick p.clock) p.me msg.from_ msg.timestamp] }

/-- `handleReleaseMessage` from the `mutualexclusion` variant: remove the
released request from the local request queue. -/
def handleReleaseMessage (p : Process) (msg : Message) : Process :=
  { p with requestQueue := queueRemove p.requestQueue msg.timestamp }

/-- One iteration of the `Listening` loop of the `mutualexclusion` variant:
ignore own messages and acknowledge messages addressed to someone else;
otherwise update the clocks, dispatch on the message type and re-evaluate
rule 5. -/
def handleMessage (p : Process) (msg : Message) : Process :=
  if msg.from_ = p.me ∨ (msg.msgType = MsgType.acknowledgment ∧ msg.to_ ≠ p.me) then
    p
  else
    let p1 := updateTime p msg.from_ msg.msgTime
    let p2 :=
      match msg.msgType with
      | MsgType.requestResource => handleRequestMessage p1 msg
      | MsgType.releaseResource => handleReleaseMessage p1 msg
      | MsgType.acknowledgment => p1
    checkRule5 p2

namespace Mutual

/-- The state of one process of the `mutual` (self-driving) variant, with its
`occupyTimes` budget.  `sent` and `events` are the transport and resource
traces, as in the other variant. -/
structure Process where
  me : Int
  isOccupying : Bool
  occupyTimes : Int
  clock : Nat
  receivedTime : List (Int × Nat)
  requestQueue : List Timestamp
  requestTimestamp : Option Timestamp
  sent : List Message
  events : List ResourceEvent
deriving DecidableEq

/-- `request` from the `mutual` variant: builds the timestamp from one clock
tick, then ticks the clock again for the REQUEST message's clock field,
broadcasts the message and pushes the timestamp into the local queue.  Note
that, as in the source, `requestTimestamp` is not assigned. -/
def request (p : Process) : Process :=
  { p with
    clock := clockTick (clockTick p.clock)
    sent := p.sent ++
      [newMessage MsgType.requestResource (clockTick (clockTick p.clock)) p.me OTHERS
        (some ⟨clockTick p.clock, p.me⟩)]
    requestQueue := p.requestQueue ++ [⟨clockTick p.clock, p.me⟩] }

/-- `occupyResource` from the `mutual` variant. -/
def occupyResource (p : Process) : Process :=
  { p with
    isOccupying := true
    events := p.events ++ [ResourceEvent.occupy p.requestTimestamp] }

/-- `releaseResource` from the `mutual` variant. -/
def releaseResource (p : Process) : Process :=
  { p with
    events := p.events ++ [ResourceEvent.release p.requestTimestamp]
    requestQueue := queueRemove p.requestQueue p.requestTimestamp
    clock := clockTick p.clock
    sent := p.sent ++
      [newMessage MsgType.releaseResource (clockTick p.clock) p.me OTHERS p.requestTimestamp]
    requestTimestamp := none
    isOccupying := false }

/-- `addOccupyTimes` from the `mutual` variant: panics (modelled as `none`)
when `n` is negative, otherwise adds `n` to the occupation budget. -/
def addOccupyTimes (p : Process) (n : Int) : Option Process :=
  if n < 0 then none else some { p with occupyTimes := p.occupyTimes + n }

/-- `needResource` from the `mutual` variant. -/
def needResource (p : Process) : Bool :=
  if p.occupyTimes ≤ 0 ∨ p.requestTimestamp ≠ none then false else true

/-- The guard of `checkRule5` in the `mutual` variant: the rule fires when
the active request timestamp equals the queue minimum and its time is not ≥
the minimum received time.  The nil-safe equality makes the short-circuited
`Time()` read reachable only when a request timestamp is present. -/
def rule5Satisfied (p : Process) : Bool :=
  tsOptEqual p.requestTimestamp (queueMin p.requestQueue) &&
    !decide (tsOptTime p.requestTimestamp ≥ rtMin p.receivedTime)

/-- `checkRule5` from the `mutual` variant: when the guard passes, the
spawned task occupies the resource (its later release is scheduled after a
random sleep, modelled separately by `releaseResource`). -/
def checkRule5 (p : Process) : Process :=
  if rule5Satisfied p then occupyResource p else p

end Mutual

/-- Re-evaluating rule 5 never changes the peer-knowledge table. -/
theorem checkRule5_receivedTime (p : Process) :
    (checkRule5 p).receivedTime = p.receivedTime := by
  by_cases h : isSatisfiedRule5 p = true <;> simp [checkRule5, occupyResource, h]

/-- Re-evaluating rule 5 never changes the clock. -/
theorem checkRule5_clock (p : Process) : (checkRule5 p).clock = p.clock := by
  by_cases h : isSatisfiedRule5 p = true <;> simp [checkRule5, occupyResource, h]

/-- Re-evaluating rule 5 never changes the request queue. -/
theorem checkRule5_requestQueue (p : Process) :
    (checkRule5 p).requestQueue = p.requestQueue := by
  by_cases h : isSatisfiedRule5 p = true <;> simp [checkRule5, occupyResource, h]

/-- The rule-5 predicate of the `mutualexclusion` variant unfolded into its
four conditions. -/
theorem isSatisfiedRule5_iff (p : Process) :
    isSatisfiedRule5 p = true ↔
      p.isOccupying = false ∧ ∃ ts, p.requestTimestamp = some ts ∧
        ts.isEqual (queueMin p.requestQueue) = true ∧
        ts.time < rtMin p.receivedTime := by
  cases hocc : p.isOccupying <;> cases hrt : p.requestTimestamp <;>
    simp [isSatisfiedRule5, hocc, hrt, Timestamp.isBefore]

/-- The transition from Requesting to Occupying happens exactly when rule 5
is satisfied. -/
theorem transition_iff_rule5 (p : Process) :
    ((checkRule5 p).isOccupying = true ∧ p.isOccupying = false) ↔
      isSatisfiedRule5 p = true := by
  by_cases hs : isSatisfiedRule5 p = true
  · have hocc : p.isOccupying = false := ((isSatisfiedRule5_iff p).mp hs).1
    simp [checkRule5, occupyResource, hs, hocc]
  · cases hocc : p.isOccupying <;> simp [checkRule5, hs, hocc]

/-- C1 (amended).  In the `mutualexclusion` variant the transition from
Requesting to Occupying fires exactly when all four conditions hold at once:
`isOccupying` is false, a request timestamp is outstanding, it equals
`requestQueue.min()`, and its time is strictly less than
`receivedTime.min()`.  In the `mutual` variant, `checkRule5` fires exactly
when the last two conditions hold (the nil-safe equality forces a request
timestamp to be outstanding), with no `isOccupying` guard at all. -/
theorem grant_rule_characterization :
    (∀ p : Process,
      ((checkRule5 p).isOccupying = true ∧ p.isOccupying = false) ↔
        (p.isOccupying = false ∧ ∃ ts, p.requestTimestamp = some ts ∧
          ts.isEqual (queueMin p.requestQueue) = true ∧
          ts.time < rtMin p.receivedTime)) ∧
    (∀ q : Mutual.Process,
      Mutual.rule5Satisfied q = true ↔
        ∃ ts, q.requestTimestamp = some ts ∧
          tsOptEqual (some ts) (queueMin q.requestQueue) = true ∧
          ts.time < rtMin q.receivedTime) := by
  constructor
  · intro p
    exact (transition_iff_rule5 p).trans (isSatisfiedRule5_iff p)
  · intro q
    cases hrt : q.requestTimestamp with
    | none => simp [Mutual.rule5Satisfied, hrt, tsOptEqual]
    | some ts => simp [Mutual.rule5Satisfied, hrt, tsOptEqual, tsOptTime]

/-- C1, counterexample to the claim as stated: in the `mutual` variant the
grant rule fires at a state in which the process is already occupying (the
first of the four conditions is violated), invoking the resource's Occupy a
second time. -/
theorem grant_rule_counterexample :
    Mutual.rule5Satisfied ⟨0, true, 0, 5, [(1, 2)], [⟨1, 0⟩], some ⟨1, 0⟩, [], []⟩ = true ∧
    (⟨0, true, 0, 5, [(1, 2)], [⟨1, 0⟩], some ⟨1, 0⟩, [], []⟩ : Mutual.Process).isOccupying
      = true ∧
    (Mutual.checkRule5 ⟨0, true, 0, 5, [(1, 2)], [⟨1, 0⟩], some ⟨1, 0⟩, [], []⟩).events
      = [ResourceEvent.occupy (some ⟨1, 0⟩)] := by
  decide

/-- C3, failing input: in the `mutual` variant, `request()` from a fresh
process ticks the clock twice — the broadcast REQUEST message carries clock
value 2 while the timestamp it carries is (1, 0) — and `requestTimestamp`
remains unset. -/
theorem mutual_request_divergence :
    Mutual.request ⟨0, false, 0, 0, [(1, 0)], [], none, [], []⟩ =
      ⟨0, false, 0, 2, [(1, 0)], [⟨1, 0⟩], none,
        [newMessage MsgType.requestResource 2 0 OTHERS (some ⟨1, 0⟩)], []⟩ := by
  decide

/-- C4, counterexample: `Request` does not evaluate the grant rule at all —
at a state whose peer knowledge already satisfies the rule, rule 5 holds
right after the five steps of `Request` and yet the process has not been
granted the resource. -/
theorem request_no_immediate_check_counterexample :
    isSatisfiedRule5 (Request ⟨0, 0, 0, [(1, 5)], [], false, none, [], []⟩) = true ∧
    (Request ⟨0, 0, 0, [(1, 5)], [], false, none, [], []⟩).isOccupying = false := by
  decide

/-- C4 (amended).  `Request` performs only the five request steps: it never
changes the occupation state and never calls into the external resource; the
grant rule is evaluated only when the listening loop processes an incoming
message. -/
theorem request_does_not_grant (p : Process) :
    (Request p).isOccupying = p.isOccupying ∧ (Request p).events = p.events := by
  simp [Request]

/-- C5.  Receiving a REQUEST message from a peer performs, in order: the
clock update and the peer-knowledge update, the push of the message's payload
timestamp, a clock tick followed by a unicast acknowledge message to the
requester carrying the post-tick clock value, and a re-evaluation of the
grant rule on the resulting state. -/
theorem receive_request_spec (p : Process) (m : Message)
    (hty : m.msgType = MsgType.requestResource) (hfrom : m.from_ ≠ p.me) :
    ∃ r ack,
      handleMessage p m = checkRule5 r ∧
      ack = newMessage MsgType.acknowledgment (clockTick (clockUpdate p.clock m.msgTime))
        p.me m.from_ m.timestamp ∧
      ack.msgType = MsgType.acknowledgment ∧
      ack.to_ = m.from_ ∧
      ack.from_ = p.me ∧
      ack.msgTime = r.clock ∧
      r.clock = clockTick (clockUpdate p.clock m.msgTime) ∧
      r.receivedTime = rtUpdate p.receivedTime m.from_ m.msgTime ∧
      r.requestQueue = queuePush p.requestQueue m.timestamp ∧
      r.sent = p.sent ++ [ack] ∧
      r.me = p.me ∧ r.isOccupying = p.isOccupying ∧
      r.requestTimestamp = p.requestTimestamp ∧
      r.events = p.events ∧ r.wg = p.wg := by
  refine ⟨handleRequestMessage (updateTime p m.from_ m.msgTime) m,
    newMessage MsgType.acknowledgment (clockTick (clockUpdate p.clock m.msgTime))
      p.me m.from_ m.timestamp, ?_, rfl, ?_⟩
  · simp [handleMessage, hty, hfrom]
  · simp [handleRequestMessage, updateTime, newMessage]

/-- C5, witness at a concrete process and message. -/
theorem receive_request_spec_witness :
    (newMessage MsgType.requestResource 3 1 OTHERS (some ⟨3, 1⟩)).msgType
      = MsgType.requestResource ∧
    (newMessage MsgType.requestResource 3 1 OTHERS (some ⟨3, 1⟩)).from_
      ≠ (⟨0, 0, 0, [(1, 0)], [], false, none, [], []⟩ : Process).me ∧
    (∃ r ack,
      handleMessage ⟨0, 0, 0, [(1, 0)], [], false, none, [], []⟩
          (newMessage MsgType.requestResource 3 1 OTHERS (some ⟨3, 1⟩)) = checkRule5 r ∧
      ack = newMessage MsgType.acknowledgment (clockTick (clockUpdate 0 3)) 0 1 (some ⟨3, 1⟩) ∧
      ack.msgType = MsgType.acknowledgment ∧
      ack.to_ = 1 ∧
      ack.from_ = 0 ∧
      ack.msgTime = r.clock ∧
      r.clock = clockTick (clockUpdate 0 3) ∧
      r.receivedTime = rtUpdate [(1, 0)] 1 3 ∧
      r.requestQueue = queuePush [] (some ⟨3, 1⟩) ∧
      r.sent = [] ++ [ack] ∧
      r.me = 0 ∧ r.isOccupying = false ∧
      r.requestTimestamp = none ∧
      r.events = [] ∧ r.wg = 0) :=
  ⟨rfl, by decide,
    receive_request_spec ⟨0, 0, 0, [(1, 0)], [], false, none, [], []⟩
      (newMessage MsgType.requestResource 3 1 OTHERS (some ⟨3, 1⟩)) rfl (by decide)⟩

/-- C6.  When the grant rule is satisfied, the grant-and-release cycle calls
the external resource's Occupy and then its Release with the same token (the
active request timestamp), removes that token from the local request queue,
ticks the clock and broadcasts a RELEASE message carrying the token, resets
the active request timestamp and the occupying flag, and signals the wait
group that blocks `Request`. -/
theorem release_spec (p : Process) (h : isSatisfiedRule5 p = true) :
    (checkRule5 p).events = p.events ++ [ResourceEvent.occupy p.requestTimestamp] ∧
    (releaseResource (checkRule5 p)).events =
      p.events ++ [ResourceEvent.occupy p.requestTimestamp,
        ResourceEvent.release p.requestTimestamp] ∧
    (releaseResource (checkRule5 p)).requestQueue =
      queueRemove p.requestQueue p.requestTimestamp ∧
    (releaseResource (checkRule5 p)).clock = clockTick p.clock ∧
    (releaseResource (checkRule5 p)).sent = p.sent ++
      [newMessage MsgType.releaseResource (clockTick p.clock) p.me OTHERS
        p.requestTimestamp] ∧
    (releaseResource (checkRule5 p)).requestTimestamp = none ∧
    (releaseResource (checkRule5 p)).isOccupying = false ∧
    (releaseResource (checkRule5 p)).wg = p.wg - 1 := by
  simp [checkRule5, h, occupyResource, releaseResource]

/-- C6, witness at a concrete state in which the grant rule holds. -/
theorem release_spec_witness :
    isSatisfiedRule5 ⟨0, 1, 1, [(1, 2)], [⟨1, 0⟩], false, some ⟨1, 0⟩, [], []⟩ = true ∧
    ((checkRule5 ⟨0, 1, 1, [(1, 2)], [⟨1, 0⟩], false, some ⟨1, 0⟩, [], []⟩).events
        = [] ++ [ResourceEvent.occupy (some ⟨1, 0⟩)] ∧
      (releaseResource (checkRule5 ⟨0, 1, 1, [(1, 2)], [⟨1, 0⟩], false, some ⟨1, 0⟩, [], []⟩)).events
        = [] ++ [ResourceEvent.occupy (some ⟨1, 0⟩), ResourceEvent.release (some ⟨1, 0⟩)] ∧
      (releaseResource (checkRule5 ⟨0, 1, 1, [(1, 2)], [⟨1, 0⟩], false, some ⟨1, 0⟩, [], []⟩)).requestQueue
        = queueRemove [⟨1, 0⟩] (some ⟨1, 0⟩) ∧
      (releaseResource (checkRule5 ⟨0, 1, 1, [(1, 2)], [⟨1, 0⟩], false, some ⟨1, 0⟩, [], []⟩)).clock
        = clockTick 1 ∧
      (releaseResource (checkRule5 ⟨0, 1, 1, [(1, 2)], [⟨1, 0⟩], false, some ⟨1, 0⟩, [], []⟩)).sent
        = [] ++ [newMessage MsgType.releaseResource (clockTick 1) 0 OTHERS (some ⟨1, 0⟩)] ∧
      (releaseResource (checkRule5 ⟨0, 1, 1, [(1, 2)], [⟨1, 0⟩], false, some ⟨1, 0⟩, [], []⟩)).requestTimestamp
        = none ∧
      (releaseResource (checkRule5 ⟨0, 1, 1, [(1, 2)], [⟨1, 0⟩], false, some ⟨1, 0⟩, [], []⟩)).isOccupying
        = false ∧
      (releaseResource (checkRule5 ⟨0, 1, 1, [(1, 2)], [⟨1, 0⟩], false, some ⟨1, 0⟩, [], []⟩)).wg
        = 1 - 1) :=
  ⟨by decide, release_spec ⟨0, 1, 1, [(1, 2)], [⟨1, 0⟩], false, some ⟨1, 0⟩, [], []⟩ (by decide)⟩

/-- C7.  A process makes no state change at all for a message whose sender is
itself, nor for an acknowledge message addressed to a different process; any
other delivered message is processed: the sender's send time is recorded in
the peer-knowledge table and the clock is advanced at least to the message's
clock value. -/
theorem listening_filter (p : Process) (m : Message) :
    (m.from_ = p.me → handleMessage p m = p) ∧
    (m.msgType = MsgType.acknowledgment → m.to_ ≠ p.me → handleMessage p m = p) ∧
    (m.from_ ≠ p.me → (m.msgType = MsgType.acknowledgment → m.to_ = p.me) →
      (handleMessage p m).receivedTime = rtUpdate p.receivedTime m.from_ m.msgTime ∧
      m.msgTime ≤ (handleMessage p m).clock) := by
  refine ⟨fun h => by simp [handleMessage, h], fun h1 h2 => by simp [handleMessage, h1, h2],
    fun h1 h2 => ?_⟩
  cases hty : m.msgType with
  | requestResource =>
    simp [handleMessage, hty, h1, checkRule5_receivedTime, checkRule5_clock,
      handleRequestMessage, updateTime, clockTick, clockUpdate]
    exact le_trans (Nat.le_max_right _ _) (Nat.le_succ _)
  | acknowledgment =>
    have hto : m.to_ = p.me := h2 hty
    simp [handleMessage, hty, h1, hto, checkRule5_receivedTime, checkRule5_clock,
      updateTime, clockUpdate]
  | releaseResource =>
    simp [handleMessage, hty, h1, checkRule5_receivedTime, checkRule5_clock,
      handleReleaseMessage, updateTime, clockUpdate]

/-- C7, witness: a process ignores its own REQUEST broadcast, ignores an
acknowledge message addressed to another process, and processes a REQUEST
from a peer. -/
theorem listening_filter_witness :
    handleMessage ⟨0, 0, 0, [(1, 0)], [], false, none, [], []⟩
        (newMessage MsgType.requestResource 7 0 OTHERS (some ⟨7, 0⟩)) =
      ⟨0, 0, 0, [(1, 0)], [], false, none, [], []⟩ ∧
    handleMessage ⟨0, 0, 0, [(1, 0)], [], false, none, [], []⟩
        (newMessage MsgType.acknowledgment 7 1 2 none) =
      ⟨0, 0, 0, [(1, 0)], [], false, none, [], []⟩ ∧
    ((handleMessage ⟨0, 0, 0, [(1, 0)], [], false, none, [], []⟩
          (newMessage MsgType.requestResource 7 1 OTHERS (some ⟨7, 1⟩))).receivedTime
        = rtUpdate [(1, 0)] 1 7 ∧
      (newMessage MsgType.requestResource 7 1 OTHERS (some ⟨7, 1⟩)).msgTime
        ≤ (handleMessage ⟨0, 0, 0, [(1, 0)], [], false, none, [], []⟩
            (newMessage MsgType.requestResource 7 1 OTHERS (some ⟨7, 1⟩))).clock) :=
  ⟨(listening_filter ⟨0, 0, 0, [(1, 0)], [], false, none, [], []⟩
      (newMessage MsgType.requestResource 7 0 OTHERS (some ⟨7, 0⟩))).1 rfl,
    (listening_filter ⟨0, 0, 0, [(1, 0)], [], false, none, [], []⟩
      (newMessage MsgType.acknowledgment 7 1 2 none)).2.1 rfl (by decide),
    (listening_filter ⟨0, 0, 0, [(1, 0)], [], false, none, [], []⟩
      (newMessage MsgType.requestResource 7 1 OTHERS (some ⟨7, 1⟩))).2.2 (by decide)
      (fun h => by cases h)⟩

/-- C9.  Removing a timestamp that is not present leaves the request queue
unchanged (a no-op, no error), and a late or duplicate RELEASE message whose
token is already absent leaves the receiving peer's request queue exactly as
it was. -/
theorem remove_absent_noop (p : Process) (m : Message) (ts : Timestamp)
    (hty : m.msgType = MsgType.releaseResource) (hfrom : m.from_ ≠ p.me)
    (hts : m.timestamp = some ts) (habs : ts ∉ p.requestQueue) :
    queueRemove p.requestQueue m.timestamp = p.requestQueue ∧
    (handleMessage p m).requestQueue = p.requestQueue := by
  have hnoop : queueRemove p.requestQueue m.timestamp = p.requestQueue := by
    rw [hts]
    exact List.erase_of_not_mem habs
  refine ⟨hnoop, ?_⟩
  simp [handleMessage, hty, hfrom, checkRule5_requestQueue, handleReleaseMessage, updateTime,
    hnoop]

/-- C9, witness: a RELEASE for the already-removed token (5, 1) arriving at a
peer whose queue holds only (1, 0) leaves that queue unchanged. -/
theorem remove_absent_noop_witness :
    queueRemove [⟨1, 0⟩] (newMessage MsgType.releaseResource 6 1 OTHERS (some ⟨5, 1⟩)).timestamp
      = [⟨1, 0⟩] ∧
    (handleMessage ⟨0, 0, 3, [(1, 2)], [⟨1, 0⟩], false, none, [], []⟩
        (newMessage MsgType.releaseResource 6 1 OTHERS (some ⟨5, 1⟩))).requestQueue
      = [⟨1, 0⟩] :=
  remove_absent_noop ⟨0, 0, 3, [(1, 2)], [⟨1, 0⟩], false, none, [], []⟩
    (newMessage MsgType.releaseResource 6 1 OTHERS (some ⟨5, 1⟩)) ⟨5, 1⟩
    rfl (by decide) rfl (by decide)

/-- C10.  `addOccupyTimes` panics (modelled as `none`) exactly when its
argument is negative; for a non-negative argument it adds the argument to
`occupyTimes` and leaves every other field unchanged; and `needResource`
returns true exactly when the occupation budget is positive and no request
timestamp is outstanding. -/
theorem addOccupyTimes_needResource_spec (p : Mutual.Process) (n : Int) :
    (Mutual.addOccupyTimes p n = none ↔ n < 0) ∧
    (0 ≤ n → Mutual.addOccupyTimes p n = some { p with occupyTimes := p.occupyTimes + n }) ∧
    (Mutual.needResource p = true ↔ 0 < p.occupyTimes ∧ p.requestTimestamp = none) := by
  refine ⟨?_, fun hn => ?_, ?_⟩
  · by_cases hn : n < 0 <;> simp [Mutual.addOccupyTimes, hn]
  · simp [Mutual.addOccupyTimes, not_lt.mpr hn]
  · by_cases h1 : p.occupyTimes ≤ 0 <;> by_cases h2 : p.requestTimestamp = none
    all_goals simp [Mutual.needResource, h1, h2]
    all_goals omega

/-- C10, witness at a concrete process and the argument 2. -/
theorem addOccupyTimes_needResource_witness :
    ((0 : Int) ≤ 2) ∧
    Mutual.addOccupyTimes ⟨0, false, 1, 0, [(1, 0)], [], none, [], []⟩ 2 =
      some { (⟨0, false, 1, 0, [(1, 0)], [], none, [], []⟩ : Mutual.Process) with
        occupyTimes := 1 + 2 } :=
  ⟨by decide,
    (addOccupyTimes_needResource_spec ⟨0, false, 1, 0, [(1, 0)], [], none, [], []⟩ 2).2.1
      (by decide)⟩
